import Mathlib

/-!
Verification of the koishi Telegram adapter fragment.

The development shallowly embeds the two source modules:
* `src/packages/adapter-telegram/src/api.ts` — the API shim extending the
  host `Bot` prototype (`get`, `_sendMsg`, `_sendPhoto`, `sendMsg`,
  `sendGroupMsg`, `sendPrivateMsg`, `getStatusCode`);
* the HTTP server module (`TelegramHTTPServer`): its constructor and the
  webhook route handler with the quick-reply race.

JavaScript objects whose keys get case-converted are embedded as
association lists `List (String × String)`; machine integers that never
overflow in the source are `Int`/`Nat`; a JS function that may throw is a
Lean function into `Except`; `undefined` results are `Option.none`.
Remote I/O is made explicit: every outbound remote call is appended to a
log, and the response that `_request` would deliver is a parameter.
-/

set_option autoImplicit false

namespace KoishiTelegram

/-- Modelled from the spec: `camelCase` from koishi-utils (a package of this
repository that is not under src/) converts a key in the remote snake_case
naming convention to the local camelCase convention: each underscore is
dropped and the following character is uppercased. -/
def camelCaseChars : List Char → List Char
  | [] => []
  | '_' :: c :: rest => c.toUpper :: camelCaseChars rest
  | c :: rest => c :: camelCaseChars rest

def camelCaseStr (s : String) : String :=
  ⟨camelCaseChars s.data⟩

/-- Modelled from the spec: `snakeCase` from koishi-utils (not under src/)
converts a key in the local camelCase naming convention to the remote
snake_case convention: each uppercase character becomes an underscore
followed by its lowercase form. -/
def snakeCaseChars : List Char → List Char
  | [] => []
  | c :: rest =>
    if c.isUpper then '_' :: c.toLower :: snakeCaseChars rest
    else c :: snakeCaseChars rest

def snakeCaseStr (s : String) : String :=
  ⟨snakeCaseChars s.data⟩

/-- Key-wise camelCase conversion of an object, as `camelCase` applies to a
plain object: every key is converted, values are kept. -/
def camelCaseObj (d : List (String × String)) : List (String × String) :=
  d.map (fun kv => (camelCaseStr kv.1, kv.2))

/-- Key-wise snake_case conversion of an object. -/
def snakeCaseObj (d : List (String × String)) : List (String × String) :=
  d.map (fun kv => (snakeCaseStr kv.1, kv.2))

/-- JSON serialization of a flat string-valued object, as
`JSON.stringify` renders it. -/
def stringifyPairs (d : List (String × String)) : String :=
  "\x7b" ++ String.intercalate ","
    (d.map (fun kv => "\"" ++ kv.1 ++ "\":\"" ++ kv.2 ++ "\"")) ++ "\x7d"

/-- The wire-level reply envelope (`CQResponse` in api.ts): status string,
numeric result classifier and payload data. -/
structure CQResponse where
  status : String
  retcode : Int
  data : List (String × String)
deriving DecidableEq

/-- Outcome of `Bot.prototype.get`: either the function returns a value
(`some` converted data, or `none` for JS `undefined`), or it throws a
`SenderError` carrying the action url and the retcode. -/
inductive GetOutcome
  | ret (value : Option (List (String × String)))
  | thrownSenderError (args : List (String × String)) (url : String)
      (retcode : Int)
deriving DecidableEq

/-- Embedding of `Bot.prototype.get` (api.ts lines 73-85). The response the
awaited `_request(action, snakeCase(params))` resolves to is passed in as
`response`; the retcode classification is translated branch for branch:
retcode 0 and not silent returns the camelCased data, negative retcode and
not silent throws, retcode greater than 1 always throws, and every other
case falls through to an undefined return. -/
def get (action : String) (params : List (String × String)) (silent : Bool)
    (response : CQResponse) : GetOutcome :=
  if response.retcode = 0 ∧ silent = false then
    .ret (some (camelCaseObj response.data))
  else if response.retcode < 0 ∧ silent = false then
    .thrownSenderError params action response.retcode
  else if response.retcode > 1 then
    .thrownSenderError params action response.retcode
  else
    .ret none

/-- The request that `get` issues through `_request`: the action together
with the snake_cased parameters (api.ts line 75). -/
def requestSent (action : String) (params : List (String × String)) :
    String × List (String × String) :=
  (action, snakeCaseObj params)

/-- The status enum of the host (`BotStatusCode` from koishi-core); only
the three values this adapter produces are needed. -/
inductive BotStatusCode
  | GOOD
  | BOT_IDLE
  | NET_ERROR
deriving DecidableEq

/-- A thrown transport or network failure of the liveness probe. -/
structure ProbeError where
  message : String
deriving DecidableEq

/-- Embedding of `Bot.prototype.getStatusCode` (api.ts lines 146-154):
an unready bot is BOT_IDLE; otherwise the outcome of awaiting
`get('getMe')` is passed in as `probe`, and a thrown failure is caught and
mapped to NET_ERROR while success yields GOOD. -/
def getStatusCode (ready : Bool) (probe : Except ProbeError Unit) :
    BotStatusCode :=
  if ready = false then .BOT_IDLE
  else
    match probe with
    | .ok _ => .GOOD
    | .error _ => .NET_ERROR

/-- A node of the parsed segment chain produced by `CQCode.parseAll`: a
plain JS string, or a CQ code node with its type and the url field of its
data (the empty string standing for an absent url, which is falsy exactly
like JS undefined at the places the source tests it). -/
inductive CQNode
  | text (s : String)
  | code (ty : String) (url : String)
deriving DecidableEq

/-- A remote call that actually reaches `_request` through `get`. -/
inductive RemoteCall
  | sendPhoto (chatId : Int) (caption : String) (photo : String)
  | sendMessage (chatId : Int) (message : String)
deriving DecidableEq

/-- Embedding of `Bot.prototype._sendMsg` (api.ts lines 87-90): an empty
(falsy) message returns immediately with no remote call; otherwise the
send_message call is issued and awaited, but its response is not returned,
so the function resolves to undefined — hence the first component is
always `none`. The second component is the list of remote calls issued. -/
def _sendMsg (chatId : Int) (message : String) :
    Option Nat × List RemoteCall :=
  if message = "" then (none, [])
  else (none, [.sendMessage chatId message])

/-- Embedding of `Bot.prototype._sendPhoto` (api.ts lines 92-95): an empty
(falsy) photo returns immediately with no remote call; otherwise the
send_photo call is issued and awaited, but its response is not returned,
so the function resolves to undefined. -/
def _sendPhoto (chatId : Int) (caption : String) (photo : String) :
    Option Nat × List RemoteCall :=
  if photo = "" then (none, [])
  else (none, [.sendPhoto chatId caption photo])

/-- The JS runtime error raised by reading a property of undefined. -/
inductive JsError
  | typeErrorUndefined
deriving DecidableEq

deriving instance DecidableEq for Except

/-- The loop of `Bot.prototype.sendMsg` (api.ts lines 101-112) over the
parsed chain, threading the mutable locals: the accumulated caption text
`msg` and buffered image `img` of `payload`, the `result` variable, and
the log of remote calls issued so far. A string node appends to the text;
an image node first flushes any buffered image together with the
accumulated text (resetting both), then buffers its own url; every other
node is ignored. -/
def sendMsgLoop (chatId : Int) : List CQNode → String → String →
    Option Nat → List RemoteCall →
    String × String × Option Nat × List RemoteCall
  | [], msg, img, result, log => (msg, img, result, log)
  | .text s :: rest, msg, img, result, log =>
    sendMsgLoop chatId rest (msg ++ s) img result log
  | .code ty url :: rest, msg, img, result, log =>
    if ty = "image" then
      if img ≠ "" then
        let flush := _sendPhoto chatId msg img
        sendMsgLoop chatId rest "" url flush.1 (log ++ flush.2)
      else
        sendMsgLoop chatId rest msg url result log
    else
      sendMsgLoop chatId rest msg img result log

/-- The trailing flush of `Bot.prototype.sendMsg` (api.ts lines 113-119):
after the loop, a buffered image is flushed as a photo (preferred), else
remaining text is sent as a plain message; the first component is the
final value of the `result` variable, the second the full remote-call
log. -/
def sendMsgFinal (chatId : Int)
    (st : String × String × Option Nat × List RemoteCall) :
    Option Nat × List RemoteCall :=
  if st.2.1 ≠ "" then
    ((_sendPhoto chatId st.1 st.2.1).1,
      st.2.2.2 ++ (_sendPhoto chatId st.1 st.2.1).2)
  else if st.1 ≠ "" then
    ((_sendMsg chatId st.1).1, st.2.2.2 ++ (_sendMsg chatId st.1).2)
  else
    (st.2.2.1, st.2.2.2)

/-- Embedding of `Bot.prototype.sendMsg` (api.ts lines 97-121) applied to
an already-parsed chain: run the loop, flush the trailing image (preferred)
or trailing text, then evaluate `return result.messageId`; since `result`
holds the resolved value of `_sendMsg`/`_sendPhoto` — which is undefined —
the property read is modelled by `Except`. -/
def sendMsg (chatId : Int) (chain : List CQNode) :
    Except JsError Nat × List RemoteCall :=
  match sendMsgFinal chatId (sendMsgLoop chatId chain "" "" none []) with
  | (none, log) => (.error .typeErrorUndefined, log)
  | (some mid, log) => (.ok mid, log)

/-- Embedding of `Bot.prototype.sendGroupMsg` (api.ts lines 123-130). The
host-owned pieces are parameters: `parseAll` is `CQCode.parseAll` from
koishi-utils applied inside `sendMsg` to the session message, and `bail`
is the verdict of the before-send bail-out hook. An empty (falsy) message
returns undefined at once with no remote call; a bailed send likewise
returns undefined; otherwise the result of `sendMsg` is recorded and
returned. -/
def sendGroupMsg (parseAll : String → List CQNode) (bail : Bool)
    (chatId : Int) (message : String) :
    Except JsError (Option Nat) × List RemoteCall :=
  if message = "" then (.ok none, [])
  else if bail then (.ok none, [])
  else
    match sendMsg chatId (parseAll message) with
    | (.ok mid, log) => (.ok (some mid), log)
    | (.error e, log) => (.error e, log)

/-- Embedding of `Bot.prototype.sendPrivateMsg` (api.ts lines 132-139),
structurally identical to `sendGroupMsg` up to the session subtype. -/
def sendPrivateMsg (parseAll : String → List CQNode) (bail : Bool)
    (userId : Int) (message : String) :
    Except JsError (Option Nat) × List RemoteCall :=
  if message = "" then (.ok none, [])
  else if bail then (.ok none, [])
  else
    match sendMsg userId (parseAll message) with
    | (.ok mid, log) => (.ok (some mid), log)
    | (.error e, log) => (.error e, log)

/-- A chain node is an image segment when it is a code node of type
image (api.ts line 104). -/
def isImageNode : CQNode → Bool
  | .code ty _ => ty = "image"
  | .text _ => false

/-- A chain node is a plain-text segment when it is a JS string. -/
def isTextNode : CQNode → Bool
  | .text _ => true
  | .code _ _ => false

/-- The url carried by a node (empty for text nodes). -/
def nodeUrl : CQNode → String
  | .code _ url => url
  | .text _ => ""

/-- Number of photo-send remote calls in a log. -/
def countPhoto (log : List RemoteCall) : Nat :=
  (log.filter fun c => match c with
    | .sendPhoto _ _ _ => true
    | .sendMessage _ _ => false).length

/-- Number of plain-text send remote calls in a log. -/
def countMessage (log : List RemoteCall) : Nat :=
  (log.filter fun c => match c with
    | .sendPhoto _ _ _ => false
    | .sendMessage _ _ => true).length

/-- Number of image segments in a parsed chain. -/
def imageCount (chain : List CQNode) : Nat :=
  (chain.filter isImageNode).length

/-- Every text segment of the chain is adjacent to an image segment. -/
def textAdjacentToImage (chain : List CQNode) : Prop :=
  ∀ i : Fin chain.length, isTextNode (chain.get i) = true →
    (∃ h : i.1 + 1 < chain.length, isImageNode (chain.get ⟨i.1 + 1, h⟩) = true)
    ∨ (∃ j : Fin chain.length, j.1 + 1 = i.1 ∧ isImageNode (chain.get j) = true)

/-- One entry of `app.options.bots`: its server base url and its transport
type, the empty string standing for an absent (falsy) field. -/
structure BotOptions where
  server : String
  type : String
deriving DecidableEq

/-- The slice of `app.options` the constructor reads: the configured port
(none when absent) and the bot entries. -/
structure AppOptions where
  port : Option Nat
  bots : List BotOptions
deriving DecidableEq

/-- An exception the TelegramHTTPServer constructor can throw before
reaching the superclass constructor. -/
inductive CtorError
  | missingPort
  | undefinedTypeRead
deriving DecidableEq

/-- Outcome of the TelegramHTTPServer constructor: `ok` means `super(app)`
was reached (the flag records whether the infer-type message was logged,
which happens exactly when the found bot has no type); `thrown` means an
exception escaped before `super(app)`. -/
inductive CtorOutcome
  | ok (inferLogged : Bool)
  | thrown (e : CtorError)
deriving DecidableEq

/-- The predicate of the constructor's bot search: a truthy server
field. -/
def hasServer (b : BotOptions) : Bool :=
  b.server ≠ ""

/-- Embedding of the TelegramHTTPServer constructor: `assertProperty`
throws when no port is configured; then `bots.find(bot => bot.server)`
looks for an entry with a truthy server field, and reading `.type` of the
find result throws a TypeError when the search found nothing; a found bot
without a type only triggers the infer-type log, after which `super(app)`
runs in every surviving case. -/
def telegramCtor (opts : AppOptions) : CtorOutcome :=
  match opts.port with
  | none => .thrown .missingPort
  | some _ =>
    match opts.bots.find? hasServer with
    | none => .thrown .undefinedTypeRead
    | some bot => .ok (bot.type = "")

/-- The observable state of one webhook request: the koa context response
fields, the session fields the handler touches, the timer, and the number
of dispatches into the host pipeline. `dollarAttached` is the `$response`
property installed with defineProperty; `underscoreCleared` records that
`_response` has been assigned null. -/
structure WebState where
  status : Option Nat
  respond : Bool
  headersWritten : Bool
  body : String
  ended : Bool
  endTime : Option Nat
  dollarAttached : Bool
  underscoreCleared : Bool
  timerArmed : Bool
  timerFired : Bool
  dispatches : Nat
deriving DecidableEq

/-- The state of the context before the route handler runs: nothing
written, nothing attached, no dispatch. -/
def initialWebState : WebState :=
  { status := none, respond := true, headersWritten := false, body := "",
    ended := false, endTime := none, dollarAttached := false,
    underscoreCleared := false, timerArmed := false, timerFired := false,
    dispatches := 0 }

/-- The callback installed as `$response` on the session: it assigns null
to `_response`, cancels the timer, writes the JSON serialization of the
snake_cased payload and ends the stream; `t` is the instant the handler
invokes it. -/
def dollarResponseCb (payload : List (String × String)) (t : Nat)
    (s : WebState) : WebState :=
  { s with
    underscoreCleared := true, timerArmed := false,
    body := s.body ++ stringifyPairs (snakeCaseObj payload),
    ended := true, endTime := some t }

/-- The timeout callback armed for `quickOperation` milliseconds: on
expiry it assigns null to `_response` and ends the stream with nothing
written. The `$response` property installed with defineProperty is not
touched. -/
def timerCb (expiry : Nat) (s : WebState) : WebState :=
  { s with
    underscoreCleared := true, timerArmed := false,
    timerFired := true, ended := true, endTime := some expiry }

/-- The synchronous part of the webhook route handler: a body that failed
to parse into a session (`parsed = none`) sets status 403 and stops; a
parsed session under a positive quickOperation suspends koa's response
handling, writes the headers, attaches the `$response` callback and arms
the timer; in every parsed case the session is then dispatched exactly
once. -/
def routeHandler (quickOperation : Int) (parsed : Option Unit)
    (s : WebState) : WebState :=
  match parsed with
  | none => { s with status := some 403 }
  | some _ =>
    let s1 :=
      if quickOperation > 0 then
        { s with
          respond := false, headersWritten := true,
          dollarAttached := true, timerArmed := true }
      else s
    { s1 with dispatches := s1.dispatches + 1 }

/-- One full webhook request under the single-threaded event loop: the
route handler runs first; afterwards, if a timer was armed, either the
dispatched handlers invoke the attached callback with a payload at some
instant before the timeout, or the timer fires at the timeout. `event`
is the optional (instant, payload) pair of the handler response. -/
def runWebhook (quickOperation : Int) (parsed : Option Unit)
    (event : Option (Nat × List (String × String))) : WebState :=
  let s := routeHandler quickOperation parsed initialWebState
  if s.timerArmed then
    match event with
    | some (t, payload) =>
      if t < quickOperation.toNat then dollarResponseCb payload t s
      else timerCb quickOperation.toNat s
    | none => timerCb quickOperation.toNat s
  else s

/-! ## Helper lemmas -/

theorem countPhoto_append (a b : List RemoteCall) :
    countPhoto (a ++ b) = countPhoto a + countPhoto b := by
  simp [countPhoto, List.filter_append]

theorem countMessage_append (a b : List RemoteCall) :
    countMessage (a ++ b) = countMessage a + countMessage b := by
  simp [countMessage, List.filter_append]

theorem hasServer_true (b : BotOptions) :
    hasServer b = true ↔ b.server ≠ "" := by
  simp [hasServer]

/-- Invariant of the `sendMsg` loop: over a chain whose image segments all
carry a nonempty url, the loop issues one photo flush per image segment
except that the first image met with an empty buffer only fills the
buffer; it never issues a plain-text send; and the buffer ends nonempty
exactly when it started nonempty or the chain contains an image. -/
theorem sendMsgLoop_count (chatId : Int) (chain : List CQNode)
    (hurl : ∀ n ∈ chain, isImageNode n = true → nodeUrl n ≠ "") :
    ∀ (msg img : String) (result : Option Nat) (log : List RemoteCall),
    countPhoto (sendMsgLoop chatId chain msg img result log).2.2.2
        + (if img = "" ∧ 0 < imageCount chain then 1 else 0)
      = countPhoto log + imageCount chain
    ∧ countMessage (sendMsgLoop chatId chain msg img result log).2.2.2
      = countMessage log
    ∧ ((sendMsgLoop chatId chain msg img result log).2.1 ≠ ""
        ↔ (img ≠ "" ∨ 0 < imageCount chain)) := by
  induction chain with
  | nil =>
    intro msg img result log
    simp [sendMsgLoop, imageCount]
  | cons node rest ih =>
    have hurlRest : ∀ n ∈ rest, isImageNode n = true → nodeUrl n ≠ "" :=
      fun n hn => hurl n (List.mem_cons_of_mem _ hn)
    intro msg img result log
    match node with
    | .text s =>
      have h1 : imageCount (CQNode.text s :: rest) = imageCount rest := by
        simp [imageCount, isImageNode]
      simp only [sendMsgLoop, h1]
      exact ih hurlRest (msg ++ s) img result log
    | .code ty url =>
      by_cases hty : ty = "image"
      · subst hty
        have hnode : isImageNode (CQNode.code "image" url) = true := by
          simp [isImageNode]
        have hu : url ≠ "" := by
          have := hurl (CQNode.code "image" url) (List.mem_cons_self _ _) hnode
          simpa [nodeUrl] using this
        have h1 : imageCount (CQNode.code "image" url :: rest)
            = imageCount rest + 1 := by
          simp [imageCount, isImageNode]
        by_cases himg : img = ""
        · have hloop : sendMsgLoop chatId (CQNode.code "image" url :: rest)
              msg img result log
              = sendMsgLoop chatId rest msg url result log := by
            simp [sendMsgLoop, himg]
          obtain ⟨ihp, ihm, ihi⟩ := ih hurlRest msg url result log
          rw [hloop, h1]
          have hif : (if url = "" ∧ 0 < imageCount rest then 1 else 0) = 0 :=
            by simp [hu]
          rw [hif] at ihp
          refine ⟨by simp [himg]; omega, ihm, ?_⟩
          rw [ihi]
          constructor
          · intro _
            right
            omega
          · intro _
            left
            exact hu
        · have hloop : sendMsgLoop chatId (CQNode.code "image" url :: rest)
              msg img result log
              = sendMsgLoop chatId rest "" url none
                  (log ++ [RemoteCall.sendPhoto chatId msg img]) := by
            simp [sendMsgLoop, himg, _sendPhoto]
          obtain ⟨ihp, ihm, ihi⟩ := ih hurlRest "" url none
            (log ++ [RemoteCall.sendPhoto chatId msg img])
          rw [hloop, h1]
          have hif : (if url = "" ∧ 0 < imageCount rest then 1 else 0) = 0 :=
            by simp [hu]
          rw [hif] at ihp
          rw [countPhoto_append] at ihp
          rw [countMessage_append] at ihm
          have hp1 : countPhoto [RemoteCall.sendPhoto chatId msg img] = 1 :=
            rfl
          have hm1 : countMessage [RemoteCall.sendPhoto chatId msg img] = 0 :=
            rfl
          rw [hp1] at ihp
          rw [hm1] at ihm
          refine ⟨by simp [himg]; omega, by omega, ?_⟩
          rw [ihi]
          constructor
          · intro _
            left
            exact himg
          · intro _
            left
            exact hu
      · have h1 : imageCount (CQNode.code ty url :: rest) = imageCount rest :=
          by simp [imageCount, isImageNode, hty]
        have hloop : sendMsgLoop chatId (CQNode.code ty url :: rest)
            msg img result log
            = sendMsgLoop chatId rest msg img result log := by
          simp [sendMsgLoop, hty]
        rw [hloop, h1]
        exact ih hurlRest msg img result log

theorem sendMsgLoop_cons_image_flush (chatId : Int) (url : String)
    (rest : List CQNode) (msg img : String) (result : Option Nat)
    (log : List RemoteCall) (himg : img ≠ "") :
    sendMsgLoop chatId (CQNode.code "image" url :: rest) msg img result log
      = sendMsgLoop chatId rest "" url none
          (log ++ [RemoteCall.sendPhoto chatId msg img]) := by
  simp [sendMsgLoop, himg, _sendPhoto]

theorem sendMsgLoop_cons_image_buffer (chatId : Int) (url : String)
    (rest : List CQNode) (msg img : String) (result : Option Nat)
    (log : List RemoteCall) (himg : img = "") :
    sendMsgLoop chatId (CQNode.code "image" url :: rest) msg img result log
      = sendMsgLoop chatId rest msg url result log := by
  simp [sendMsgLoop, himg]

theorem sendMsgLoop_cons_other (chatId : Int) (ty url : String)
    (rest : List CQNode) (msg img : String) (result : Option Nat)
    (log : List RemoteCall) (hty : ty ≠ "image") :
    sendMsgLoop chatId (CQNode.code ty url :: rest) msg img result log
      = sendMsgLoop chatId rest msg img result log := by
  simp [sendMsgLoop, hty]

/-- The `sendMsg` loop ignores every node that is neither a plain string
nor an image code: running it over a chain equals running it over the
chain with only those nodes kept. -/
theorem sendMsgLoop_filter (chatId : Int) (chain : List CQNode) :
    ∀ (msg img : String) (result : Option Nat) (log : List RemoteCall),
    sendMsgLoop chatId chain msg img result log
      = sendMsgLoop chatId
          (chain.filter fun n => isTextNode n || isImageNode n)
          msg img result log := by
  induction chain with
  | nil => intro msg img result log; rfl
  | cons node rest ih =>
    intro msg img result log
    match node with
    | .text s =>
      have hf : (CQNode.text s :: rest).filter
            (fun n => isTextNode n || isImageNode n)
          = CQNode.text s
            :: rest.filter (fun n => isTextNode n || isImageNode n) := by
        simp [List.filter_cons, isTextNode]
      rw [hf]
      show sendMsgLoop chatId rest (msg ++ s) img result log = _
      rw [show sendMsgLoop chatId
          (CQNode.text s
            :: rest.filter (fun n => isTextNode n || isImageNode n))
          msg img result log
        = sendMsgLoop chatId
            (rest.filter (fun n => isTextNode n || isImageNode n))
            (msg ++ s) img result log from rfl]
      exact ih (msg ++ s) img result log
    | .code ty url =>
      by_cases hty : ty = "image"
      · subst hty
        have hf : (CQNode.code "image" url :: rest).filter
              (fun n => isTextNode n || isImageNode n)
            = CQNode.code "image" url
              :: rest.filter (fun n => isTextNode n || isImageNode n) := by
          simp [List.filter_cons, isTextNode, isImageNode]
        rw [hf]
        by_cases himg : img = ""
        · rw [sendMsgLoop_cons_image_buffer chatId url rest msg img result
            log himg]
          rw [sendMsgLoop_cons_image_buffer chatId url _ msg img result
            log himg]
          exact ih msg url result log
        · rw [sendMsgLoop_cons_image_flush chatId url rest msg img result
            log himg]
          rw [sendMsgLoop_cons_image_flush chatId url _ msg img result
            log himg]
          exact ih "" url none (log ++ [RemoteCall.sendPhoto chatId msg img])
      · have hf : (CQNode.code ty url :: rest).filter
              (fun n => isTextNode n || isImageNode n)
            = rest.filter (fun n => isTextNode n || isImageNode n) := by
          simp [List.filter_cons, isTextNode, isImageNode, hty]
        rw [hf, sendMsgLoop_cons_other chatId ty url rest msg img result
          log hty]
        exact ih msg img result log

/-! ## Claim theorems -/

/-- C1: for every call `get(action, params, silent)` and response: retcode
0 with silent false returns the camelCased data; a negative retcode with
silent false throws a SenderError; a retcode greater than 1 throws
regardless of silent; retcode exactly 1 returns undefined without
throwing; and with silent true both retcode 0 and negative retcodes yield
undefined without throwing. -/
theorem get_retcode_classification (action : String)
    (params : List (String × String)) (resp : CQResponse) :
    (resp.retcode = 0 →
      get action params false resp = .ret (some (camelCaseObj resp.data)))
    ∧ (resp.retcode < 0 →
      get action params false resp
        = .thrownSenderError params action resp.retcode)
    ∧ (∀ silent : Bool, 1 < resp.retcode →
      get action params silent resp
        = .thrownSenderError params action resp.retcode)
    ∧ (∀ silent : Bool, resp.retcode = 1 →
      get action params silent resp = .ret none)
    ∧ (resp.retcode = 0 ∨ resp.retcode < 0 →
      get action params true resp = .ret none) := by
  refine ⟨?_, ?_, ?_, ?_, ?_⟩
  · intro h
    simp [get, h]
  · intro h
    have h0 : resp.retcode ≠ 0 := by omega
    simp [get, h0, h]
  · intro silent h
    have h0 : resp.retcode ≠ 0 := by omega
    have h1 : ¬ resp.retcode < 0 := by omega
    simp [get, h0, h1, h]
  · intro silent h
    simp [get, h]
  · intro h
    rcases h with h | h
    · simp [get, h]
    · have h0 : resp.retcode ≠ 0 := by omega
      have h2 : ¬ 1 < resp.retcode := by omega
      simp [get, h0, h, h2]

/-- Witness for C1 at concrete responses, one per retcode class. -/
theorem get_retcode_classification_witness :
    get "sendMessage" [("chatId", "7")] false ⟨"ok", 0, [("message_id", "5")]⟩
      = .ret (some (camelCaseObj [("message_id", "5")]))
    ∧ get "sendMessage" [("chatId", "7")] false ⟨"failed", -1, []⟩
      = .thrownSenderError [("chatId", "7")] "sendMessage" (-1)
    ∧ get "sendMessage" [("chatId", "7")] true ⟨"failed", 100, []⟩
      = .thrownSenderError [("chatId", "7")] "sendMessage" 100
    ∧ get "sendMessage" [("chatId", "7")] true ⟨"async", 1, []⟩ = .ret none
    ∧ get "sendMessage" [("chatId", "7")] true ⟨"ok", 0, []⟩ = .ret none :=
  ⟨(get_retcode_classification "sendMessage" [("chatId", "7")]
      ⟨"ok", 0, [("message_id", "5")]⟩).1 rfl,
   (get_retcode_classification "sendMessage" [("chatId", "7")]
      ⟨"failed", -1, []⟩).2.1 (by decide),
   (get_retcode_classification "sendMessage" [("chatId", "7")]
      ⟨"failed", 100, []⟩).2.2.1 true (by decide),
   (get_retcode_classification "sendMessage" [("chatId", "7")]
      ⟨"async", 1, []⟩).2.2.2.1 true rfl,
   (get_retcode_classification "sendMessage" [("chatId", "7")]
      ⟨"ok", 0, []⟩).2.2.2.2 (Or.inl rfl)⟩

/-- C3 (code bug): even on a message whose single send is issued
successfully, `sendMsg` does not return the messageId of that send:
`_sendMsg` and `_sendPhoto` discard the awaited response and resolve to
undefined, so the final `result.messageId` property read raises a
TypeError. The log component shows the send_message call was issued. -/
theorem sendMsg_drops_messageId :
    sendMsg 7 [.text "hello"]
      = (.error .typeErrorUndefined, [.sendMessage 7 "hello"]) := by
  decide

/-- C6: `sendGroupMsg` and `sendPrivateMsg` on an empty (falsy) message
return undefined immediately and issue no remote call, for every parse
function, bail-hook verdict and chat identifier. -/
theorem send_empty_message_is_noop (parseAll : String → List CQNode)
    (bail : Bool) (chatId : Int) :
    sendGroupMsg parseAll bail chatId "" = (.ok none, [])
    ∧ sendPrivateMsg parseAll bail chatId "" = (.ok none, []) := by
  constructor <;> simp [sendGroupMsg, sendPrivateMsg]

/-- C8: on a ready bot, a thrown transport failure of the liveness probe
`get('getMe')` is caught and mapped to NET_ERROR instead of propagating,
and a successful probe yields GOOD. -/
theorem getStatusCode_catches_probe_failure (e : ProbeError) :
    getStatusCode true (.error e) = .NET_ERROR
    ∧ getStatusCode true (.ok ()) = .GOOD := by
  constructor <;> rfl

/-- C2: on a chain interleaving text with exactly two image segments
(each a parsed inline image carrying a nonempty url) in which every text
segment is adjacent to an image, `sendMsg` issues exactly two photo-send
calls and zero plain-text send calls. -/
theorem sendMsg_two_images (chatId : Int) (chain : List CQNode)
    (himg : imageCount chain = 2)
    (hurl : ∀ n ∈ chain, isImageNode n = true → nodeUrl n ≠ "")
    (hadj : textAdjacentToImage chain) :
    countPhoto (sendMsg chatId chain).2 = 2
    ∧ countMessage (sendMsg chatId chain).2 = 0 := by
  clear hadj
  obtain ⟨hp, hm, hi⟩ := sendMsgLoop_count chatId chain hurl "" "" none []
  set st := sendMsgLoop chatId chain "" "" none [] with hst
  have hne : st.2.1 ≠ "" := hi.mpr (Or.inr (by omega))
  rw [himg] at hp
  have hif : (if ("" : String) = "" ∧ 0 < 2 then 1 else 0) = 1 := by
    norm_num
  rw [hif] at hp
  have hc0 : countPhoto ([] : List RemoteCall) = 0 := rfl
  have hm0 : countMessage ([] : List RemoteCall) = 0 := rfl
  rw [hc0] at hp
  rw [hm0] at hm
  have hfinal : sendMsgFinal chatId st
      = (none, st.2.2.2 ++ [RemoteCall.sendPhoto chatId st.1 st.2.1]) := by
    simp [sendMsgFinal, hne, _sendPhoto]
  have hsend : sendMsg chatId chain
      = (.error .typeErrorUndefined,
         st.2.2.2 ++ [RemoteCall.sendPhoto chatId st.1 st.2.1]) := by
    unfold sendMsg
    rw [← hst, hfinal]
  rw [hsend]
  have hp1 : countPhoto [RemoteCall.sendPhoto chatId st.1 st.2.1] = 1 := rfl
  have hm1 : countMessage [RemoteCall.sendPhoto chatId st.1 st.2.1] = 0 :=
    rfl
  constructor
  · show countPhoto (st.2.2.2 ++ [RemoteCall.sendPhoto chatId st.1 st.2.1])
      = 2
    rw [countPhoto_append, hp1]
    omega
  · show countMessage (st.2.2.2 ++ [RemoteCall.sendPhoto chatId st.1 st.2.1])
      = 0
    rw [countMessage_append, hm1, hm]

/-- Witness for C2 on the concrete chain text, image, text, image. -/
theorem sendMsg_two_images_witness :
    countPhoto (sendMsg 7 [.text "a", .code "image" "u1", .text "b",
      .code "image" "u2"]).2 = 2
    ∧ countMessage (sendMsg 7 [.text "a", .code "image" "u1", .text "b",
      .code "image" "u2"]).2 = 0 :=
  sendMsg_two_images 7
    [.text "a", .code "image" "u1", .text "b", .code "image" "u2"]
    (by decide) (by decide)
    (by
      intro i hi
      fin_cases i
      · exact Or.inl ⟨by norm_num, by decide⟩
      · exact absurd hi (by decide)
      · exact Or.inl ⟨by norm_num, by decide⟩
      · exact absurd hi (by decide))

/-- C10: `sendMsg` silently discards every parsed segment that is neither
a plain string nor an image code node: the whole run — remote calls and
returned value alike — equals the run on the chain restricted to text and
image segments. -/
theorem sendMsg_discards_other_segments (chatId : Int)
    (chain : List CQNode) :
    sendMsg chatId chain
      = sendMsg chatId
          (chain.filter fun n => isTextNode n || isImageNode n) := by
  unfold sendMsg
  rw [← sendMsgLoop_filter chatId chain "" "" none []]

/-- C5: a webhook body that fails to parse yields HTTP status 403 and no
dispatch; a parsed body is dispatched into the host pipeline exactly once,
whatever the quick-reply configuration and whatever the handlers do. -/
theorem webhook_parse_dispatch (qo : Int)
    (event : Option (Nat × List (String × String))) :
    ((runWebhook qo none event).status = some 403
      ∧ (runWebhook qo none event).dispatches = 0)
    ∧ (runWebhook qo (some ()) event).dispatches = 1 := by
  refine ⟨⟨?_, ?_⟩, ?_⟩
  · simp [runWebhook, routeHandler, initialWebState]
  · simp [runWebhook, routeHandler, initialWebState]
  · rcases event with _ | ⟨t, p⟩
    · by_cases hq : qo > 0 <;>
        simp [runWebhook, routeHandler, initialWebState, timerCb, hq]
    · by_cases hq : qo > 0
      · by_cases ht : t < qo.toNat <;>
          simp [runWebhook, routeHandler, initialWebState, timerCb,
            dollarResponseCb, hq, ht]
      · simp [runWebhook, routeHandler, initialWebState, hq]

/-- C4 (code bug): under quick-reply mode with timeout 50, a handler
response at instant 10 produces the snake_cased JSON body, an ended
stream at 10 and a cancelled timer — but when no response arrives, the
expired timer ends the stream empty at 50 while assigning null only to
the `_response` field: the callback actually attached (the `$response`
property) is still in place, contradicting the claim that expiry clears
the attached callback. -/
theorem quick_reply_race_behavior :
    (runWebhook 50 (some ()) (some (10, [("atSender", "true")]))).body
      = stringifyPairs (snakeCaseObj [("atSender", "true")])
    ∧ (runWebhook 50 (some ()) (some (10, [("atSender", "true")]))).endTime
      = some 10
    ∧ (runWebhook 50 (some ()) (some (10, [("atSender", "true")]))).timerFired
      = false
    ∧ (runWebhook 50 (some ()) (some (10, [("atSender", "true")]))).timerArmed
      = false
    ∧ (runWebhook 50 (some ()) none).body = ""
    ∧ (runWebhook 50 (some ()) none).endTime = some 50
    ∧ (runWebhook 50 (some ()) none).underscoreCleared = true
    ∧ (runWebhook 50 (some ()) none).dollarAttached = true := by
  decide

/-- Counterexample to C7 as stated: with a port configured and a single
bot entry whose transport type is configured, no bot entry without a
configured transport type exists, yet construction succeeds. -/
theorem ctor_succeeds_without_typeless_bot :
    (∀ b ∈ [BotOptions.mk "http://x" "telegram"], b.type ≠ "")
    ∧ telegramCtor ⟨some 8080, [BotOptions.mk "http://x" "telegram"]⟩
      = .ok false := by
  decide

/-- C7 amended: the constructor validates that a port is configured and
that a bot entry with a truthy server field exists; construction reaches
the superclass constructor exactly when both hold, and the found bot's
missing type only controls the infer-type log. -/
theorem telegramCtor_ok_iff (opts : AppOptions) :
    (∃ flag, telegramCtor opts = .ok flag)
      ↔ (opts.port ≠ none
          ∧ (opts.bots.any fun b => b.server ≠ "") = true) := by
  constructor
  · rintro ⟨flag, hflag⟩
    unfold telegramCtor at hflag
    rcases hp : opts.port with _ | p
    · rw [hp] at hflag
      exact absurd hflag (by simp)
    · rw [hp] at hflag
      rcases hf : opts.bots.find? hasServer with _ | bot
      · rw [hf] at hflag
        exact absurd hflag (by simp)
      · refine ⟨by simp [hp], ?_⟩
        have hbmem := List.mem_of_find?_eq_some hf
        have hbp := (hasServer_true bot).mp (List.find?_some hf)
        rw [List.any_eq_true]
        exact ⟨bot, hbmem, by simpa using hbp⟩
  · rintro ⟨hport, hany⟩
    rcases hp : opts.port with _ | p
    · exact absurd hp hport
    · rw [List.any_eq_true] at hany
      obtain ⟨b, hb, hbp⟩ := hany
      have hbs : b.server ≠ "" := by simpa using hbp
      rcases hf : opts.bots.find? hasServer with _ | bot
      · exact absurd ((hasServer_true b).mpr hbs)
          (List.find?_eq_none.mp hf b hb)
      · exact ⟨decide (bot.type = ""), by simp [telegramCtor, hp, hf]⟩

/-- Witness for the amended C7 at a concrete configuration. -/
theorem telegramCtor_ok_iff_witness :
    ∃ flag, telegramCtor ⟨some 8080, [BotOptions.mk "http://x" ""]⟩
      = .ok flag :=
  (telegramCtor_ok_iff ⟨some 8080, [BotOptions.mk "http://x" ""]⟩).mpr
    (by decide)

/-- Counterexample to C9 as stated: with no configured port and no bot
entries, no entry has a truthy server field, yet the constructor throws
the missing-port assertion error, not the TypeError from reading .type of
undefined. -/
theorem ctor_no_server_missing_port_counterexample :
    (([] : List BotOptions).all fun b => b.server = "") = true
    ∧ telegramCtor ⟨none, []⟩ = .thrown .missingPort
    ∧ telegramCtor ⟨none, []⟩ ≠ .thrown .undefinedTypeRead := by
  decide

/-- C9 amended: provided a port is configured, the constructor throws the
TypeError (reading .type of undefined, before the superclass constructor)
exactly in the no-truthy-server case: if no bot entry has a truthy server
field it throws that TypeError, and if some entry has one, construction
reaches the superclass constructor regardless of that entry's type. -/
theorem telegramCtor_server_detection (opts : AppOptions) (p : Nat)
    (hport : opts.port = some p) :
    ((opts.bots.all fun b => b.server = "") = true →
      telegramCtor opts = .thrown .undefinedTypeRead)
    ∧ ((opts.bots.any fun b => b.server ≠ "") = true →
      ∃ flag, telegramCtor opts = .ok flag) := by
  constructor
  · intro hall
    have hf : opts.bots.find? hasServer = none := by
      rw [List.find?_eq_none]
      intro b hb
      have hbs : b.server = "" := by
        simpa using List.all_eq_true.mp hall b hb
      rw [hasServer_true]
      intro hcontra
      exact hcontra hbs
    simp [telegramCtor, hport, hf]
  · intro hany
    rw [List.any_eq_true] at hany
    obtain ⟨b, hb, hbp⟩ := hany
    have hbs : b.server ≠ "" := by simpa using hbp
    rcases hf : opts.bots.find? hasServer with _ | bot
    · exact absurd ((hasServer_true b).mpr hbs)
        (List.find?_eq_none.mp hf b hb)
    · exact ⟨decide (bot.type = ""), by simp [telegramCtor, hport, hf]⟩

/-- Witness for the amended C9: both directions at concrete
configurations with a configured port. -/
theorem telegramCtor_server_detection_witness :
    telegramCtor ⟨some 8080, [BotOptions.mk "" "x"]⟩
      = .thrown .undefinedTypeRead
    ∧ ∃ flag, telegramCtor ⟨some 8080, [BotOptions.mk "http://x" "telegram"]⟩
      = .ok flag :=
  ⟨(telegramCtor_server_detection ⟨some 8080, [BotOptions.mk "" "x"]⟩ 8080
      rfl).1 (by decide),
   (telegramCtor_server_detection
      ⟨some 8080, [BotOptions.mk "http://x" "telegram"]⟩ 8080 rfl).2
      (by decide)⟩

end KoishiTelegram
